import Mathlib

/-!
A shallow embedding of the moving-request record lifecycle, record store and
intent router of the livekit voice-assistant repository, with theorems
checking the specification claims against it.

Embedded modules: src/db_driver.py (DatabaseDriver and the moving_requests
table constraints), src/api.py (AssistantFnc) and src/agent.py (the
utterance routing handlers).  Python str is modelled as Lean String over its
characters (ASCII-faithful), Python int as Int, Optional[str] as
Option String, a raised exception as Except.error, and the SQL table as a
list of rows in insertion order.
-/

namespace MovingApp

/-- Whitespace class of Python str.strip() (ASCII part). -/
def pyIsSpace (c : Char) : Bool :=
  c = ' ' || c = '\t' || c = '\n' || c = '\r' || c = '\x0b' || c = '\x0c'

/-- Drop leading and trailing whitespace from a character list. -/
def stripList (cs : List Char) : List Char :=
  ((cs.dropWhile pyIsSpace).reverse.dropWhile pyIsSpace).reverse

/-- Python str.strip(). -/
def pyStrip (s : String) : String := ⟨stripList s.data⟩

/-- Python str.lower() (ASCII letters). -/
def pyLower (s : String) : String := ⟨s.data.map Char.toLower⟩

/-- Truthiness of a Python str: non-empty. -/
def pyTruthyStr (s : String) : Bool := !(s == "")

/-- Truthiness of a Python Optional[str]: not None and non-empty. -/
def optTruthy : Option String → Bool
  | none => false
  | some s => pyTruthyStr s

/-- The MovingRequest dataclass of src/db_driver.py. -/
structure MovingRequest where
  request_id : String
  customer_name : String
  email : String
  phone_number : String
  phone_type : String
  from_address : String
  from_building_type : String
  from_bedrooms : Int
  to_address : String
  move_date : String
  flexible_date : Bool
  assist_car : Bool
  car_year : Option String
  car_make : Option String
  car_model : Option String
deriving DecidableEq

/-- Errors raised by the database layer: a table CHECK or key violation
(psycopg2.IntegrityError) or a ValueError from input validation. -/
inductive DBError where
  | integrityViolation
  | valueError (msg : String)
deriving DecidableEq

/-- One conjunct of the required-field check of AssistantFnc.has_moving_request
(api.py line 241): `field and str(field).strip()` is truthy. -/
def fieldOk (s : String) : Bool := pyTruthyStr s && pyTruthyStr (pyStrip s)

/-- Body of AssistantFnc.has_moving_request (api.py lines 228-251) applied to a
fetched record. -/
def isCompleteRecord (result : MovingRequest) : Bool :=
  let has_required :=
    fieldOk result.customer_name && fieldOk result.email &&
    fieldOk result.phone_number && fieldOk result.phone_type &&
    fieldOk result.from_address && fieldOk result.from_building_type &&
    fieldOk result.to_address && fieldOk result.move_date
  let has_bedrooms := !(result.from_bedrooms == 0) && decide (0 < result.from_bedrooms)
  let has_car_details :=
    if result.assist_car then
      optTruthy result.car_year && optTruthy result.car_make && optTruthy result.car_model
    else true
  has_required && has_bedrooms && has_car_details

/-- AssistantFnc.has_moving_request (api.py lines 221-255): the argument is the
outcome of DB.get_moving_request on the session request id; any raised
exception yields false, a missing record yields false. -/
def hasMovingRequest (fetched : Except DBError (Option MovingRequest)) : Bool :=
  match fetched with
  | .error _ => false
  | .ok none => false
  | .ok (some r) => isCompleteRecord r

/-- Completeness as claim C1 words it: the eight required fields are non-empty
strings, from_bedrooms is positive and, when assist_car is set, the three car
fields are truthy. -/
def c1ClaimComplete (r : MovingRequest) : Bool :=
  pyTruthyStr r.customer_name && pyTruthyStr r.email &&
  pyTruthyStr r.phone_number && pyTruthyStr r.phone_type &&
  pyTruthyStr r.from_address && pyTruthyStr r.from_building_type &&
  pyTruthyStr r.to_address && pyTruthyStr r.move_date &&
  decide (0 < r.from_bedrooms) &&
  (if r.assist_car then
    optTruthy r.car_year && optTruthy r.car_make && optTruthy r.car_model
  else true)

/-- Completeness as amended: the eight required fields are non-blank (non-empty
after stripping whitespace), from_bedrooms is positive and, when assist_car is
set, the three car fields are truthy. -/
def c1AmendedComplete (r : MovingRequest) : Bool :=
  pyTruthyStr (pyStrip r.customer_name) && pyTruthyStr (pyStrip r.email) &&
  pyTruthyStr (pyStrip r.phone_number) && pyTruthyStr (pyStrip r.phone_type) &&
  pyTruthyStr (pyStrip r.from_address) && pyTruthyStr (pyStrip r.from_building_type) &&
  pyTruthyStr (pyStrip r.to_address) && pyTruthyStr (pyStrip r.move_date) &&
  decide (0 < r.from_bedrooms) &&
  (if r.assist_car then
    optTruthy r.car_year && optTruthy r.car_make && optTruthy r.car_model
  else true)

theorem fieldOk_eq_strip (s : String) : fieldOk s = pyTruthyStr (pyStrip s) := by
  by_cases h : s = ""
  · subst h; decide
  · have h1 : pyTruthyStr s = true := by simp [pyTruthyStr, h]
    simp [fieldOk, h1]

theorem bedrooms_check_eq (b : Int) :
    (!(b == 0) && decide (0 < b)) = decide (0 < b) := by
  by_cases h : 0 < b
  · have hb : ¬ (b = 0) := by omega
    simp [h, hb]
  · simp [h]

/-- A record in which every required field is a non-empty string but the
customer name is all whitespace; it refutes claim C1 as stated. -/
def c1cexRecord : MovingRequest :=
  { request_id := "123456", customer_name := " ", email := "a@b.c",
    phone_number := "5551234", phone_type := "cell", from_address := "1 Main St",
    from_building_type := "house", from_bedrooms := 2, to_address := "2 Oak Ave",
    move_date := "2024-03-15", flexible_date := false, assist_car := false,
    car_year := none, car_make := none, car_model := none }

/-- C1 counterexample: a record whose eight required fields are all non-empty
strings (the customer name being a single blank), with positive bedrooms and
assist_car false, satisfies the claimed completeness condition, yet the
completeness check of the code returns false. -/
theorem c1_counterexample :
    c1ClaimComplete c1cexRecord = true ∧
    hasMovingRequest (Except.ok (some c1cexRecord)) = false := by
  decide

/-- C1 (amended): for a fetched record, has_moving_request returns true iff the
eight required fields are non-blank (non-empty after stripping whitespace),
from_bedrooms is positive and, when assist_car is true, car_year, car_make and
car_model are all present and non-empty (vacuously when assist_car is false);
when the store returns None, and when the fetch raised, it returns false. -/
theorem c1_completeness :
    (∀ r : MovingRequest,
      hasMovingRequest (Except.ok (some r)) = c1AmendedComplete r) ∧
    hasMovingRequest (Except.ok none) = false ∧
    (∀ e : DBError, hasMovingRequest (Except.error e) = false) := by
  refine ⟨fun r => ?_, rfl, fun e => rfl⟩
  simp only [hasMovingRequest, isCompleteRecord, c1AmendedComplete,
    fieldOk_eq_strip, bedrooms_check_eq, Bool.and_assoc]

/-! ## The record store (src/db_driver.py) -/

/-- The moving_requests table: rows in insertion order. -/
abbrev Store := List MovingRequest

/-- The phone_type enumeration of the table CHECK constraint. -/
def phoneTypes : List String := ["cell", "home", "work"]

/-- The from_building_type enumeration of the table CHECK constraint. -/
def buildingTypes : List String := ["house", "apartment"]

/-- The CHECK constraints of the moving_requests table (db_driver.py lines
87-90). -/
def rowOk (r : MovingRequest) : Bool :=
  phoneTypes.contains r.phone_type && buildingTypes.contains r.from_building_type &&
  decide (0 < r.from_bedrooms)

/-- SELECT * FROM moving_requests WHERE request_id = rid (first matching row). -/
def sqlSelect (st : Store) (rid : String) : Option MovingRequest :=
  st.find? (fun r => r.request_id == rid)

/-- INSERT INTO moving_requests: fails (IntegrityError) on a duplicate primary
key or a CHECK violation, otherwise appends the row. -/
def sqlInsert (st : Store) (r : MovingRequest) : Except DBError Store :=
  if (sqlSelect st r.request_id).isSome || !rowOk r then .error .integrityViolation
  else .ok (st ++ [r])

/-- The per-field normalization both SQL writes apply to their parameters
(db_driver.py lines 204-208 and 255-258): strip the free strings, lowercase the
enumerated ones. -/
def normalizeRecord (r : MovingRequest) : MovingRequest :=
  { r with
    customer_name := pyStrip r.customer_name,
    email := pyStrip r.email,
    phone_number := pyStrip r.phone_number,
    phone_type := pyLower r.phone_type,
    from_address := pyStrip r.from_address,
    from_building_type := pyLower r.from_building_type,
    to_address := pyStrip r.to_address,
    move_date := pyStrip r.move_date }

/-- DatabaseDriver.update_moving_request (db_driver.py lines 223-273): full-row
replace of the row keyed by the request id.  When no row matches, the UPDATE
touches nothing and the function returns None; when a row matches but the new
values violate a table CHECK, the IntegrityError propagates; otherwise the row
is replaced and re-fetched. -/
def dbUpdate (st : Store) (args : MovingRequest) :
    Except DBError (Store × Option MovingRequest) :=
  let r := normalizeRecord args
  match sqlSelect st args.request_id with
  | none => .ok (st, none)
  | some _ =>
    if !rowOk r then .error .integrityViolation
    else
      let st' := st.map (fun row => if row.request_id == args.request_id then r else row)
      .ok (st', sqlSelect st' args.request_id)

/-- DatabaseDriver.create_moving_request (db_driver.py lines 151-221): validate
the enumerations and the bedroom count, fall back to update when the id already
exists, otherwise insert the normalized row and re-fetch it; an IntegrityError
from the insert is converted to a ValueError. -/
def dbCreate (st : Store) (args : MovingRequest) :
    Except DBError (Store × Option MovingRequest) :=
  if !(phoneTypes.contains (pyLower args.phone_type)) then
    .error (.valueError ("Invalid phone_type: " ++ args.phone_type ++
      ". Must be \x27cell\x27, \x27home\x27, or \x27work\x27"))
  else if !(buildingTypes.contains (pyLower args.from_building_type)) then
    .error (.valueError ("Invalid from_building_type: " ++ args.from_building_type ++
      ". Must be \x27house\x27 or \x27apartment\x27"))
  else if args.from_bedrooms ≤ 0 then
    .error (.valueError ("Invalid from_bedrooms: " ++ toString args.from_bedrooms ++
      ". Must be greater than 0"))
  else if (sqlSelect st args.request_id).isSome then
    dbUpdate st args
  else
    match sqlInsert st (normalizeRecord args) with
    | .error _ => .error (.valueError "Database integrity error")
    | .ok st' => .ok (st', sqlSelect st' args.request_id)

/-- The validation dbCreate performs on its arguments. -/
def validArgs (a : MovingRequest) : Bool :=
  phoneTypes.contains (pyLower a.phone_type) &&
  buildingTypes.contains (pyLower a.from_building_type) &&
  decide (0 < a.from_bedrooms)

instance {ε α : Type} [DecidableEq ε] [DecidableEq α] : DecidableEq (Except ε α) :=
  fun x y =>
  match x, y with
  | .error a, .error b =>
    if h : a = b then .isTrue (h ▸ rfl) else .isFalse (fun hc => h (Except.error.inj hc))
  | .ok a, .ok b =>
    if h : a = b then .isTrue (h ▸ rfl) else .isFalse (fun hc => h (Except.ok.inj hc))
  | .error _, .ok _ => .isFalse (fun hc => Except.noConfusion hc)
  | .ok _, .error _ => .isFalse (fun hc => Except.noConfusion hc)

theorem normalizeRecord_id (r : MovingRequest) :
    (normalizeRecord r).request_id = r.request_id := rfl

theorem validArgs_parts (a : MovingRequest) (h : validArgs a = true) :
    pyLower a.phone_type ∈ phoneTypes ∧ pyLower a.from_building_type ∈ buildingTypes ∧
      0 < a.from_bedrooms := by
  simp only [validArgs, Bool.and_eq_true] at h
  exact ⟨by simpa using h.1.1, by simpa using h.1.2, of_decide_eq_true h.2⟩

theorem rowOk_of_validArgs (a : MovingRequest) (h : validArgs a = true) :
    rowOk (normalizeRecord a) = true := by
  obtain ⟨h1, h2, h3⟩ := validArgs_parts a h
  simp [rowOk, normalizeRecord, h1, h2, h3]

theorem find?_append_none {p : MovingRequest → Bool} (l₁ l₂ : List MovingRequest)
    (h : l₁.find? p = none) : (l₁ ++ l₂).find? p = l₂.find? p := by
  induction l₁ with
  | nil => rfl
  | cons a l ih =>
    simp only [List.find?] at h ⊢
    cases hpa : p a with
    | false => simp only [hpa] at h ⊢; exact ih h
    | true => simp [hpa] at h

theorem find?_map_replace (l : List MovingRequest) (rid : String) (nr : MovingRequest)
    (hid : nr.request_id = rid)
    (h : (l.find? (fun r => r.request_id == rid)).isSome = true) :
    ((l.map (fun row => if row.request_id == rid then nr else row)).find?
      (fun r => r.request_id == rid)) = some nr := by
  induction l with
  | nil => simp [List.find?] at h
  | cons a l ih =>
    rw [List.map_cons]
    by_cases ha : a.request_id = rid
    · have hh : (if a.request_id == rid then nr else a) = nr := by simp [ha]
      rw [hh]
      exact List.find?_cons_of_pos _ (by simp [hid])
    · have hh : (if a.request_id == rid then nr else a) = a := by simp [ha]
      rw [hh, List.find?_cons_of_neg _ (by simp [ha])]
      have h' : (l.find? (fun r => r.request_id == rid)).isSome = true := by
        rwa [List.find?_cons_of_neg _ (by simp [ha])] at h
      exact ih h'

theorem countP_map_replace (l : List MovingRequest) (rid : String) (nr : MovingRequest)
    (hid : nr.request_id = rid) :
    ((l.map (fun row => if row.request_id == rid then nr else row)).countP
      (fun r => r.request_id == rid)) = l.countP (fun r => r.request_id == rid) := by
  induction l with
  | nil => rfl
  | cons a l ih =>
    rw [List.map_cons, List.countP_cons, List.countP_cons, ih]
    by_cases ha : a.request_id = rid
    · have hh : (if a.request_id == rid then nr else a) = nr := by simp [ha]
      rw [hh]; simp [ha, hid]
    · have hh : (if a.request_id == rid then nr else a) = a := by simp [ha]
      rw [hh]

theorem dbUpdate_none (st : Store) (args : MovingRequest)
    (h : sqlSelect st args.request_id = none) :
    dbUpdate st args = .ok (st, none) := by
  simp [dbUpdate, h]

/-- C6: update on a request id with no matching row returns None and leaves the
store exactly as it was, whatever field values were supplied. -/
theorem c6_update_missing_id (st : Store) (args : MovingRequest)
    (h : sqlSelect st args.request_id = none) :
    dbUpdate st args = .ok (st, none) :=
  dbUpdate_none st args h

/-- C6 witness: updating an empty store returns None and the empty store. -/
theorem c6_update_missing_id_witness :
    dbUpdate [] c1cexRecord = .ok ([], none) :=
  c6_update_missing_id [] c1cexRecord (by decide)

/-- The store after a full-row replace of the row keyed by the request id. -/
def replaceStore (st : Store) (args : MovingRequest) : Store :=
  st.map (fun row => if row.request_id == args.request_id then normalizeRecord args else row)

/-- C3: a second create against an already-present request id does not fail but
is routed to update: the call succeeds, the store afterwards maps the id to the
second call's field values (as normalized by the store) and still holds exactly
one row with that id. -/
theorem c3_upsert (st : Store) (args : MovingRequest)
    (hvalid : validArgs args = true)
    (hexists : (sqlSelect st args.request_id).isSome = true)
    (huniq : st.countP (fun r => r.request_id == args.request_id) = 1) :
    dbCreate st args = dbUpdate st args ∧
    dbCreate st args = .ok (replaceStore st args, some (normalizeRecord args)) ∧
    sqlSelect (replaceStore st args) args.request_id = some (normalizeRecord args) ∧
    (replaceStore st args).countP (fun r => r.request_id == args.request_id) = 1 := by
  obtain ⟨hp, hb, hbed0⟩ := validArgs_parts args hvalid
  have hbed : ¬ (args.from_bedrooms ≤ 0) := by omega
  have hcreate : dbCreate st args = dbUpdate st args := by
    simp [dbCreate, hp, hb, hbed, hexists]
  have hrow : rowOk (normalizeRecord args) = true := rowOk_of_validArgs args hvalid
  have hfind := find?_map_replace st args.request_id (normalizeRecord args)
    (normalizeRecord_id args) hexists
  obtain ⟨row, hsel⟩ : ∃ row, sqlSelect st args.request_id = some row := by
    cases hs : sqlSelect st args.request_id with
    | none => rw [hs] at hexists; simp at hexists
    | some row => exact ⟨row, rfl⟩
  have hupd : dbUpdate st args =
      .ok (replaceStore st args, some (normalizeRecord args)) := by
    unfold replaceStore
    simp only [dbUpdate, hsel, hrow, Bool.not_true, Bool.false_eq_true, if_false]
    unfold sqlSelect
    rw [hfind]
  refine ⟨hcreate, hcreate.trans hupd, ?_, ?_⟩
  · unfold replaceStore sqlSelect
    exact hfind
  · unfold replaceStore
    rw [countP_map_replace st args.request_id (normalizeRecord args)
      (normalizeRecord_id args)]
    exact huniq

/-- A first record for the C3 witness store. -/
def c3FirstRecord : MovingRequest :=
  { request_id := "482913", customer_name := "Ann", email := "ann@x.y",
    phone_number := "111", phone_type := "cell", from_address := "1 A St",
    from_building_type := "house", from_bedrooms := 1, to_address := "2 B St",
    move_date := "2024-01-01", flexible_date := false, assist_car := false,
    car_year := none, car_make := none, car_model := none }

/-- The second create call of the C3 witness: same id, different values. -/
def c3SecondArgs : MovingRequest :=
  { request_id := "482913", customer_name := "Bob", email := "bob@x.y",
    phone_number := "222", phone_type := "work", from_address := "3 C St",
    from_building_type := "apartment", from_bedrooms := 4, to_address := "4 D St",
    move_date := "2024-02-02", flexible_date := true, assist_car := false,
    car_year := none, car_make := none, car_model := none }

/-- C3 witness: on a store holding one row for id 482913, a second create with
different values succeeds and the row reflects the second call. -/
theorem c3_upsert_witness :
    dbCreate [c3FirstRecord] c3SecondArgs = dbUpdate [c3FirstRecord] c3SecondArgs ∧
    dbCreate [c3FirstRecord] c3SecondArgs =
      .ok (replaceStore [c3FirstRecord] c3SecondArgs, some (normalizeRecord c3SecondArgs)) ∧
    sqlSelect (replaceStore [c3FirstRecord] c3SecondArgs) c3SecondArgs.request_id =
      some (normalizeRecord c3SecondArgs) ∧
    (replaceStore [c3FirstRecord] c3SecondArgs).countP
      (fun r => r.request_id == c3SecondArgs.request_id) = 1 :=
  c3_upsert [c3FirstRecord] c3SecondArgs (by decide) (by decide) (by decide)

/-- A valid create argument whose phone_type is capitalized; it refutes the C4
round-trip law as stated, because the store lowercases it. -/
def c4cexArgs : MovingRequest :=
  { request_id := "654321", customer_name := "Cara", email := "cara@x.y",
    phone_number := "333", phone_type := "Cell", from_address := "5 E St",
    from_building_type := "house", from_bedrooms := 3, to_address := "6 F St",
    move_date := "2024-03-03", flexible_date := false, assist_car := false,
    car_year := none, car_make := none, car_model := none }

/-- C4 counterexample: creating a valid record whose phone_type is "Cell" on a
fresh id stores and returns the lowercased record, which differs from the
record passed to create, so the round-trip is not field-for-field equality. -/
theorem c4_counterexample :
    validArgs c4cexArgs = true ∧
    dbCreate [] c4cexArgs =
      .ok ([normalizeRecord c4cexArgs], some (normalizeRecord c4cexArgs)) ∧
    normalizeRecord c4cexArgs ≠ c4cexArgs ∧
    (normalizeRecord c4cexArgs).phone_type ≠ c4cexArgs.phone_type := by
  refine ⟨by decide, by decide, by decide, by decide⟩

/-- C4 (amended): for every valid record and fresh request id, create succeeds
and an immediate get returns the record with its string fields
whitespace-stripped and its enumerated fields lowercased (the store's
normalization); a record already in this normal form round-trips unchanged. -/
theorem c4_roundtrip (st : Store) (r : MovingRequest)
    (hvalid : validArgs r = true)
    (hfresh : sqlSelect st r.request_id = none) :
    dbCreate st r = .ok (st ++ [normalizeRecord r], some (normalizeRecord r)) ∧
    sqlSelect (st ++ [normalizeRecord r]) r.request_id = some (normalizeRecord r) ∧
    (normalizeRecord r = r →
      sqlSelect (st ++ [normalizeRecord r]) r.request_id = some r) := by
  obtain ⟨hp, hb, hbed0⟩ := validArgs_parts r hvalid
  have hbed : ¬ (r.from_bedrooms ≤ 0) := by omega
  have hrow : rowOk (normalizeRecord r) = true := rowOk_of_validArgs r hvalid
  have hsome : (sqlSelect st r.request_id).isSome = false := by simp [hfresh]
  have hfind : sqlSelect (st ++ [normalizeRecord r]) r.request_id =
      some (normalizeRecord r) := by
    unfold sqlSelect at hfresh ⊢
    rw [find?_append_none st [normalizeRecord r] hfresh]
    simp [List.find?, normalizeRecord_id]
  have hnorm : sqlSelect st (normalizeRecord r).request_id = none := by
    rw [normalizeRecord_id]; exact hfresh
  have hins : sqlInsert st (normalizeRecord r) = .ok (st ++ [normalizeRecord r]) := by
    simp [sqlInsert, hnorm, hrow]
  constructor
  · rw [show dbCreate st r =
        (match sqlInsert st (normalizeRecord r) with
        | .error _ => Except.error (.valueError "Database integrity error")
        | .ok st' => .ok (st', sqlSelect st' r.request_id)) from by
      simp [dbCreate, hp, hb, hbed, hsome]]
    rw [hins]
    show Except.ok (st ++ [normalizeRecord r],
      sqlSelect (st ++ [normalizeRecord r]) r.request_id) = _
    rw [hfind]
  · exact ⟨hfind, fun he => by rw [hfind, he]⟩

/-- C4 witness: a normalized valid record on an empty store round-trips to
itself. -/
theorem c4_roundtrip_witness :
    dbCreate [] c3FirstRecord =
      .ok ([] ++ [normalizeRecord c3FirstRecord], some (normalizeRecord c3FirstRecord)) ∧
    sqlSelect ([] ++ [normalizeRecord c3FirstRecord]) c3FirstRecord.request_id =
      some (normalizeRecord c3FirstRecord) :=
  ⟨(c4_roundtrip [] c3FirstRecord (by decide) (by decide)).1,
   (c4_roundtrip [] c3FirstRecord (by decide) (by decide)).2.1⟩

/-! ## The assistant function layer (src/api.py) -/

/-- Does the first list start with the second? -/
def listStartsWith : List Char → List Char → Bool
  | _, [] => true
  | [], _ :: _ => false
  | h :: hs, n :: ns => h == n && listStartsWith hs ns

/-- Does the second list occur as a contiguous run inside the first?  Models
the Python membership test `needle in hay` on str. -/
def listHasSub (needle : List Char) : List Char → Bool
  | [] => needle.isEmpty
  | c :: rest => listStartsWith (c :: rest) needle || listHasSub needle rest

/-- Python `needle in hay` on str. -/
def containsSubstr (hay needle : String) : Bool := listHasSub needle.data hay.data

/-- The preliminary car check of AssistantFnc.create_moving_request and
update_moving_request (api.py lines 130, 187): assist_car is set but some car
detail is missing or empty. -/
def carArgsMissing (a : MovingRequest) : Bool :=
  a.assist_car && (!optTruthy a.car_year || !optTruthy a.car_make || !optTruthy a.car_model)

/-- The car-details corrective message of api.py. -/
def carIncompleteMsg : String :=
  "Car transportation details are incomplete. Please provide the car year, make, and model."

/-- The phone-type corrective message of api.py. -/
def invalidPhoneMsg (pt : String) : String :=
  "Invalid phone type \x27" ++ pt ++ "\x27. Please specify \x27cell\x27, \x27home\x27, or \x27work\x27."

/-- The building-type corrective message of api.py. -/
def invalidBuildingMsg (bt : String) : String :=
  "Invalid building type \x27" ++ bt ++ "\x27. Please specify \x27house\x27 or \x27apartment\x27."

/-- The argument normalization of the api layer (api.py lines 134-135 and
191-192): phone_type and from_building_type lowercased and stripped before
validation and before the database call. -/
def apiNormalizeArgs (args : MovingRequest) : MovingRequest :=
  { args with
    phone_type := pyStrip (pyLower args.phone_type),
    from_building_type := pyStrip (pyLower args.from_building_type) }

/-- AssistantFnc.create_moving_request (api.py lines 107-162): check the car
details, normalize and check the enumerations, then call the database layer;
the returned string is what the end user is told, and the returned store is
the table afterwards. -/
def apiCreate (st : Store) (args : MovingRequest) : Store × String :=
  if carArgsMissing args then (st, carIncompleteMsg)
  else if !(phoneTypes.contains (pyStrip (pyLower args.phone_type))) then
    (st, invalidPhoneMsg (pyStrip (pyLower args.phone_type)))
  else if !(buildingTypes.contains (pyStrip (pyLower args.from_building_type))) then
    (st, invalidBuildingMsg (pyStrip (pyLower args.from_building_type)))
  else
    match dbCreate st (apiNormalizeArgs args) with
    | .error (.valueError m) => (st, "Error creating request: " ++ m)
    | .error .integrityViolation =>
      (st, "I encountered an error creating your moving request. Please try again.")
    | .ok (st', none) => (st', "Failed to create moving request. Please try again.")
    | .ok (st', some _) =>
      (st', "Moving request created! Your request ID is: " ++ args.request_id ++
        ". Please save this ID for future reference.")

/-- AssistantFnc.update_moving_request (api.py lines 164-219): same validation
as create, then the database update. -/
def apiUpdate (st : Store) (args : MovingRequest) : Store × String :=
  if carArgsMissing args then (st, carIncompleteMsg)
  else if !(phoneTypes.contains (pyStrip (pyLower args.phone_type))) then
    (st, invalidPhoneMsg (pyStrip (pyLower args.phone_type)))
  else if !(buildingTypes.contains (pyStrip (pyLower args.from_building_type))) then
    (st, invalidBuildingMsg (pyStrip (pyLower args.from_building_type)))
  else
    match dbUpdate st (apiNormalizeArgs args) with
    | .error (.valueError m) => (st, "Error updating request: " ++ m)
    | .error .integrityViolation =>
      (st, "I encountered an error updating your moving request. Please try again.")
    | .ok (st', none) =>
      (st', "Moving request with ID " ++ args.request_id ++ " not found or failed to update.")
    | .ok (st', some _) =>
      (st', "Moving request " ++ args.request_id ++ " has been updated successfully!")

theorem pyLower_of_mem_phoneTypes (s : String) (h : phoneTypes.contains s = true) :
    pyLower s = s := by
  have hs : s = "cell" ∨ s = "home" ∨ s = "work" := by simpa [phoneTypes] using h
  rcases hs with h | h | h <;> subst h <;> decide

theorem pyLower_of_mem_buildingTypes (s : String) (h : buildingTypes.contains s = true) :
    pyLower s = s := by
  have hs : s = "house" ∨ s = "apartment" := by simpa [buildingTypes] using h
  rcases hs with h | h <;> subst h <;> decide

/-- Create arguments with an invalid phone type and missing car details:
they refute claim C5 as stated, because the car check precedes the
field validation. -/
def c5cexArgs : MovingRequest :=
  { request_id := "111111", customer_name := "Dan", email := "d@x.y",
    phone_number := "444", phone_type := "fax", from_address := "7 G St",
    from_building_type := "house", from_bedrooms := 1, to_address := "8 H St",
    move_date := "2024-04-04", flexible_date := false, assist_car := true,
    car_year := none, car_make := none, car_model := none }

/-- C5 counterexample: a create call whose phone_type is invalid but whose car
details are missing is answered with the car-details message, which does not
name the phone field, so create does not fail with a validation error naming
the offending field on every such call. -/
theorem c5_counterexample :
    phoneTypes.contains (pyStrip (pyLower c5cexArgs.phone_type)) = false ∧
    apiCreate [] c5cexArgs = ([], carIncompleteMsg) ∧
    containsSubstr carIncompleteMsg "phone" = false := by
  decide

/-- C5 (amended): for every create call that passes the preliminary car check,
if the normalized phone type is outside its enumeration, or the normalized
building type is outside its enumeration, or the bedroom count is not
positive, then no insert is attempted (the store is unchanged) and the user is
given the specific corrective message naming the first offending field and its
value, in the priority order phone type, building type, bedrooms. -/
theorem c5_validation (st : Store) (args : MovingRequest)
    (hcar : carArgsMissing args = false)
    (hbad : phoneTypes.contains (pyStrip (pyLower args.phone_type)) = false ∨
      buildingTypes.contains (pyStrip (pyLower args.from_building_type)) = false ∨
      args.from_bedrooms ≤ 0) :
    (apiCreate st args).1 = st ∧
    (apiCreate st args).2 =
      (if phoneTypes.contains (pyStrip (pyLower args.phone_type)) = false then
        invalidPhoneMsg (pyStrip (pyLower args.phone_type))
      else if buildingTypes.contains (pyStrip (pyLower args.from_building_type)) = false then
        invalidBuildingMsg (pyStrip (pyLower args.from_building_type))
      else "Error creating request: " ++ ("Invalid from_bedrooms: " ++
        toString args.from_bedrooms ++ ". Must be greater than 0")) := by
  cases hpt : phoneTypes.contains (pyStrip (pyLower args.phone_type)) with
  | false =>
    have hpt2 : pyStrip (pyLower args.phone_type) ∉ phoneTypes := by simpa using hpt
    constructor <;> simp [apiCreate, hcar, hpt, hpt2]
  | true =>
    have hpt2 : pyStrip (pyLower args.phone_type) ∈ phoneTypes := by simpa using hpt
    cases hbt : buildingTypes.contains (pyStrip (pyLower args.from_building_type)) with
    | false =>
      have hbt2 : pyStrip (pyLower args.from_building_type) ∉ buildingTypes := by simpa using hbt
      constructor <;> simp [apiCreate, hcar, hpt, hpt2, hbt, hbt2]
    | true =>
      have hbt2 : pyStrip (pyLower args.from_building_type) ∈ buildingTypes := by simpa using hbt
      have hbed : args.from_bedrooms ≤ 0 := by
        rcases hbad with h | h | h
        · rw [hpt] at h; cases h
        · rw [hbt] at h; cases h
        · exact h
      have h1 : pyLower (pyStrip (pyLower args.phone_type)) =
          pyStrip (pyLower args.phone_type) := pyLower_of_mem_phoneTypes _ hpt
      have h2 : pyLower (pyStrip (pyLower args.from_building_type)) =
          pyStrip (pyLower args.from_building_type) := pyLower_of_mem_buildingTypes _ hbt
      have hdb : dbCreate st (apiNormalizeArgs args) =
          .error (.valueError ("Invalid from_bedrooms: " ++
            toString args.from_bedrooms ++ ". Must be greater than 0")) := by
        simp [dbCreate, apiNormalizeArgs, h1, h2, hpt, hpt2, hbt, hbt2, hbed]
      constructor <;> simp [apiCreate, hcar, hpt, hpt2, hbt, hbt2, hdb]

/-- Valid-but-for-the-phone-type create arguments for the C5 witness. -/
def c5wArgs : MovingRequest :=
  { request_id := "222222", customer_name := "Eve", email := "e@x.y",
    phone_number := "555", phone_type := "fax", from_address := "9 I St",
    from_building_type := "house", from_bedrooms := 2, to_address := "10 J St",
    move_date := "2024-05-05", flexible_date := false, assist_car := false,
    car_year := none, car_make := none, car_model := none }

/-- C5 witness: a concrete create call with phone type fax is rejected with the
phone message and the store is untouched. -/
theorem c5_validation_witness :
    (apiCreate [] c5wArgs).1 = [] ∧
    (apiCreate [] c5wArgs).2 =
      (if phoneTypes.contains (pyStrip (pyLower c5wArgs.phone_type)) = false then
        invalidPhoneMsg (pyStrip (pyLower c5wArgs.phone_type))
      else if buildingTypes.contains (pyStrip (pyLower c5wArgs.from_building_type)) = false then
        invalidBuildingMsg (pyStrip (pyLower c5wArgs.from_building_type))
      else "Error creating request: " ++ ("Invalid from_bedrooms: " ++
        toString c5wArgs.from_bedrooms ++ ". Must be greater than 0")) :=
  c5_validation [] c5wArgs (by decide) (Or.inl (by decide))

/-! ## The enumeration invariant (claim C7) -/

/-- Both enumerated fields of a row are members of their enumerations (whose
members are the lowercase literals of the table CHECK constraints). -/
def enumsOk (r : MovingRequest) : Bool :=
  phoneTypes.contains r.phone_type && buildingTypes.contains r.from_building_type

/-- Every stored row has lowercase enumerated fields. -/
def storeInv (st : Store) : Bool := st.all enumsOk

theorem enumsOk_of_rowOk (r : MovingRequest) (h : rowOk r = true) : enumsOk r = true := by
  simp only [rowOk, Bool.and_eq_true] at h
  simp only [enumsOk, Bool.and_eq_true]
  exact ⟨h.1.1, h.1.2⟩

theorem sqlInsert_ok (st : Store) (r : MovingRequest) (st' : Store)
    (h : sqlInsert st r = .ok st') : st' = st ++ [r] ∧ rowOk r = true := by
  unfold sqlInsert at h
  split at h
  · exact absurd h (by simp)
  · rename_i hc
    refine ⟨(Except.ok.inj h).symm, ?_⟩
    cases hr : rowOk r with
    | true => rfl
    | false => exact absurd (by simp [hr]) hc

theorem storeInv_map_replace (st : Store) (rid : String) (nr : MovingRequest)
    (hinv : storeInv st = true) (hok : enumsOk nr = true) :
    storeInv (st.map (fun row => if row.request_id == rid then nr else row)) = true := by
  simp only [storeInv, List.all_eq_true] at hinv ⊢
  intro x hx
  rcases List.mem_map.1 hx with ⟨row, hmem, rfl⟩
  by_cases h : row.request_id = rid
  · have he : (if row.request_id == rid then nr else row) = nr := by simp [h]
    rw [he]; exact hok
  · have he : (if row.request_id == rid then nr else row) = row := by simp [h]
    rw [he]; exact hinv row hmem

theorem storeInv_dbUpdate (st : Store) (a : MovingRequest) (st' : Store)
    (x : Option MovingRequest) (hinv : storeInv st = true)
    (h : dbUpdate st a = .ok (st', x)) : storeInv st' = true := by
  cases hsel : sqlSelect st a.request_id with
  | none =>
    rw [dbUpdate_none st a hsel] at h
    have h1 : st = st' := congrArg Prod.fst (Except.ok.inj h)
    rw [← h1]; exact hinv
  | some row =>
    cases hr : rowOk (normalizeRecord a) with
    | false =>
      have hd : dbUpdate st a = .error .integrityViolation := by
        simp [dbUpdate, hsel, hr]
      rw [hd] at h; exact absurd h (by simp)
    | true =>
      have hd : dbUpdate st a = .ok
          (st.map (fun row => if row.request_id == a.request_id
            then normalizeRecord a else row),
           sqlSelect (st.map (fun row => if row.request_id == a.request_id
            then normalizeRecord a else row)) a.request_id) := by
        simp [dbUpdate, hsel, hr]
      rw [hd] at h
      have h1 : st.map (fun row => if row.request_id == a.request_id
          then normalizeRecord a else row) = st' := congrArg Prod.fst (Except.ok.inj h)
      rw [← h1]
      exact storeInv_map_replace st a.request_id (normalizeRecord a) hinv
        (enumsOk_of_rowOk _ hr)

theorem storeInv_dbCreate (st : Store) (a : MovingRequest) (st' : Store)
    (x : Option MovingRequest) (hinv : storeInv st = true)
    (h : dbCreate st a = .ok (st', x)) : storeInv st' = true := by
  unfold dbCreate at h
  split at h
  · exact absurd h (by simp)
  · split at h
    · exact absurd h (by simp)
    · split at h
      · exact absurd h (by simp)
      · split at h
        · exact storeInv_dbUpdate st a st' x hinv h
        · split at h
          · exact absurd h (by simp)
          · rename_i st'' hins
            obtain ⟨hst, hrok⟩ := sqlInsert_ok st (normalizeRecord a) st'' hins
            have h1 : st'' = st' := congrArg Prod.fst (Except.ok.inj h)
            rw [← h1, hst]
            simp only [storeInv, List.all_append, Bool.and_eq_true] at hinv ⊢
            refine ⟨hinv, ?_⟩
            simp [enumsOk_of_rowOk _ hrok]

theorem apiCreate_preserves_inv (st : Store) (args : MovingRequest)
    (hinv : storeInv st = true) : storeInv (apiCreate st args).1 = true := by
  unfold apiCreate
  split
  · exact hinv
  · split
    · exact hinv
    · split
      · exact hinv
      · split
        · exact hinv
        · exact hinv
        · rename_i st' heq
          exact storeInv_dbCreate st (apiNormalizeArgs args) st' none hinv heq
        · rename_i st' r heq
          exact storeInv_dbCreate st (apiNormalizeArgs args) st' (some r) hinv heq

theorem apiUpdate_preserves_inv (st : Store) (args : MovingRequest)
    (hinv : storeInv st = true) : storeInv (apiUpdate st args).1 = true := by
  unfold apiUpdate
  split
  · exact hinv
  · split
    · exact hinv
    · split
      · exact hinv
      · split
        · exact hinv
        · exact hinv
        · rename_i st' heq
          exact storeInv_dbUpdate st (apiNormalizeArgs args) st' none hinv heq
        · rename_i st' r heq
          exact storeInv_dbUpdate st (apiNormalizeArgs args) st' (some r) hinv heq

theorem apiCreate_unchanged (st : Store) (args : MovingRequest)
    (hbad : phoneTypes.contains (pyStrip (pyLower args.phone_type)) = false ∨
      buildingTypes.contains (pyStrip (pyLower args.from_building_type)) = false) :
    (apiCreate st args).1 = st := by
  unfold apiCreate
  split
  · rfl
  · cases hpt : phoneTypes.contains (pyStrip (pyLower args.phone_type)) with
    | false => rw [if_pos (by simpa using hpt)]
    | true =>
      rw [if_neg (by simpa using hpt)]
      have hbt : buildingTypes.contains (pyStrip (pyLower args.from_building_type)) = false := by
        rcases hbad with h | h
        · rw [hpt] at h; cases h
        · exact h
      rw [if_pos (by simpa using hbt)]

theorem apiUpdate_unchanged (st : Store) (args : MovingRequest)
    (hbad : phoneTypes.contains (pyStrip (pyLower args.phone_type)) = false ∨
      buildingTypes.contains (pyStrip (pyLower args.from_building_type)) = false) :
    (apiUpdate st args).1 = st := by
  unfold apiUpdate
  split
  · rfl
  · cases hpt : phoneTypes.contains (pyStrip (pyLower args.phone_type)) with
    | false => rw [if_pos (by simpa using hpt)]
    | true =>
      rw [if_neg (by simpa using hpt)]
      have hbt : buildingTypes.contains (pyStrip (pyLower args.from_building_type)) = false := by
        rcases hbad with h | h
        · rw [hpt] at h; cases h
        · exact h
      rw [if_pos (by simpa using hbt)]

/-- C7: for both api-level writes, an out-of-enumeration phone or building type
(after the api normalization) leaves the store untouched, and both operations
preserve the invariant that every stored row's phone_type and
from_building_type are lowercase members of their enumerations. -/
theorem c7_enum_invariant (st : Store) (args : MovingRequest)
    (hinv : storeInv st = true) :
    ((phoneTypes.contains (pyStrip (pyLower args.phone_type)) = false ∨
      buildingTypes.contains (pyStrip (pyLower args.from_building_type)) = false) →
      (apiCreate st args).1 = st ∧ (apiUpdate st args).1 = st) ∧
    storeInv (apiCreate st args).1 = true ∧ storeInv (apiUpdate st args).1 = true :=
  ⟨fun hbad => ⟨apiCreate_unchanged st args hbad, apiUpdate_unchanged st args hbad⟩,
   apiCreate_preserves_inv st args hinv, apiUpdate_preserves_inv st args hinv⟩

/-- C7 witness: on a store with one well-formed row, the writes with phone
type fax change nothing and the invariant still holds. -/
theorem c7_enum_invariant_witness :
    ((apiCreate [c3FirstRecord] c5wArgs).1 = [c3FirstRecord] ∧
      (apiUpdate [c3FirstRecord] c5wArgs).1 = [c3FirstRecord]) ∧
    storeInv (apiCreate [c3FirstRecord] c5wArgs).1 = true ∧
    storeInv (apiUpdate [c3FirstRecord] c5wArgs).1 = true :=
  ⟨(c7_enum_invariant [c3FirstRecord] c5wArgs (by decide)).1 (Or.inl (by decide)),
   (c7_enum_invariant [c3FirstRecord] c5wArgs (by decide)).2.1,
   (c7_enum_invariant [c3FirstRecord] c5wArgs (by decide)).2.2⟩

/-! ## The summary rendering (claim C8) -/

/-- Python `\x27Yes\x27 if b else \x27No\x27`. -/
def yesNo (b : Bool) : String := if b then "Yes" else "No"

/-- The display condition of the car block (api.py line 75): assist_car and the
three car values truthy. -/
def carCond (r : MovingRequest) : Bool :=
  r.assist_car && optTruthy r.car_year && optTruthy r.car_make && optTruthy r.car_model

/-- The found-record branch of AssistantFnc.get_moving_request_str (api.py
lines 62-81), built by the same sequence of appended pieces. -/
def formatRecordStr (result : MovingRequest) : String :=
  "Here are your moving request details:" ++ "\n" ++
  "Request ID: " ++ result.request_id ++ "\n" ++
  "Customer Name: " ++ result.customer_name ++ "\n" ++
  "Email: " ++ result.email ++ "\n" ++
  "Phone number: " ++ result.phone_number ++ "\n" ++
  "From Address: " ++ result.from_address ++ "\n" ++
  "Number of Bedrooms: " ++ toString result.from_bedrooms ++ "\n" ++
  "To Address: " ++ result.to_address ++ "\n" ++
  "Move Date: " ++ result.move_date ++ "\n" ++
  "Flexible Date: " ++ yesNo result.flexible_date ++ "\n" ++
  "Car Transport: " ++ yesNo result.assist_car ++ "\n" ++
  (if carCond result then
    "Car Details: " ++ ((result.car_year.getD "") ++ " " ++ (result.car_make.getD "") ++
      " " ++ (result.car_model.getD "")) ++ "\n"
  else "") ++
  "\n" ++ "Would you like to make any changes to these details?"

/-- AssistantFnc.get_moving_request_str on a fetch outcome: the not-found and
error branches return their fixed messages. -/
def getMovingRequestStr (fetched : Except DBError (Option MovingRequest)) : String :=
  match fetched with
  | .error _ =>
    "I encountered an error retrieving your moving request details. Please try again."
  | .ok none => "Moving request not found. Please check your request ID and try again."
  | .ok (some r) => formatRecordStr r

/-- The car-details line of the summary. -/
def carLine (r : MovingRequest) : String :=
  "Car Details: " ++ ((r.car_year.getD "") ++ " " ++ (r.car_make.getD "") ++
    " " ++ (r.car_model.getD ""))

/-- The trailing prompt line of the summary. -/
def endPromptLine : String := "Would you like to make any changes to these details?"

/-- The claimed line-by-line structure of the summary: one field per line as
Field Name: Value, booleans as Yes/No, the car block only under carCond, a
blank line and the trailing prompt. -/
def summaryLines (r : MovingRequest) : List String :=
  ["Here are your moving request details:",
   "Request ID: " ++ r.request_id,
   "Customer Name: " ++ r.customer_name,
   "Email: " ++ r.email,
   "Phone number: " ++ r.phone_number,
   "From Address: " ++ r.from_address,
   "Number of Bedrooms: " ++ toString r.from_bedrooms,
   "To Address: " ++ r.to_address,
   "Move Date: " ++ r.move_date,
   "Flexible Date: " ++ yesNo r.flexible_date,
   "Car Transport: " ++ yesNo r.assist_car] ++
  (if carCond r then [carLine r] else []) ++
  ["", endPromptLine]

/-- Join lines with newline separators. -/
def joinLines : List String → String
  | [] => ""
  | [l] => l
  | l :: ls => l ++ "\n" ++ joinLines ls

/-- Python str.startswith. -/
def strStartsWith (s p : String) : Bool := listStartsWith s.data p.data

theorem listStartsWith_append (l₁ x n : List Char) :
    listStartsWith (l₁ ++ x) n =
      (listStartsWith l₁ (n.take l₁.length) && listStartsWith x (n.drop l₁.length)) := by
  induction l₁ generalizing n with
  | nil => simp [listStartsWith]
  | cons a as ih =>
    cases n with
    | nil => simp [listStartsWith]
    | cons b ns =>
      simp [listStartsWith, ih, Bool.and_assoc, List.take_succ_cons, List.drop_succ_cons]

theorem strStartsWith_append_false (p x n : String)
    (h : listStartsWith p.data (n.data.take p.data.length) = false) :
    strStartsWith (p ++ x) n = false := by
  unfold strStartsWith
  rw [String.data_append, listStartsWith_append, h, Bool.false_and]

theorem strStartsWith_append_true (p x n : String)
    (h1 : listStartsWith p.data (n.data.take p.data.length) = true)
    (h2 : n.data.drop p.data.length = []) :
    strStartsWith (p ++ x) n = true := by
  unfold strStartsWith
  rw [String.data_append, listStartsWith_append, h1, h2]
  simp [listStartsWith]

/-- C8: for every found record the rendering is the newline join of the
claimed line list (deterministic, one field per line, booleans as Yes/No);
exactly one line of the summary starts with the car-details label iff
assist_car is set and all three car values are present, and none when
assist_car is false; the last line is the prompt asking for changes; and the
boolean lines render as Yes/No. -/
theorem c8_summary_format (r : MovingRequest) :
    formatRecordStr r = joinLines (summaryLines r) ∧
    (summaryLines r).countP (fun l => strStartsWith l "Car Details:") =
      (if carCond r then 1 else 0) ∧
    (r.assist_car = false →
      (summaryLines r).countP (fun l => strStartsWith l "Car Details:") = 0) ∧
    (summaryLines r).getLast? = some endPromptLine ∧
    (summaryLines r).get? 9 =
      some ("Flexible Date: " ++ (if r.flexible_date then "Yes" else "No")) ∧
    (summaryLines r).get? 10 =
      some ("Car Transport: " ++ (if r.assist_car then "Yes" else "No")) := by
  have e1 : ∀ x, strStartsWith ("Request ID: " ++ x) "Car Details:" = false :=
    fun x => strStartsWith_append_false _ x _ (by decide)
  have e2 : ∀ x, strStartsWith ("Customer Name: " ++ x) "Car Details:" = false :=
    fun x => strStartsWith_append_false _ x _ (by decide)
  have e3 : ∀ x, strStartsWith ("Email: " ++ x) "Car Details:" = false :=
    fun x => strStartsWith_append_false _ x _ (by decide)
  have e4 : ∀ x, strStartsWith ("Phone number: " ++ x) "Car Details:" = false :=
    fun x => strStartsWith_append_false _ x _ (by decide)
  have e5 : ∀ x, strStartsWith ("From Address: " ++ x) "Car Details:" = false :=
    fun x => strStartsWith_append_false _ x _ (by decide)
  have e6 : ∀ x, strStartsWith ("Number of Bedrooms: " ++ x) "Car Details:" = false :=
    fun x => strStartsWith_append_false _ x _ (by decide)
  have e7 : ∀ x, strStartsWith ("To Address: " ++ x) "Car Details:" = false :=
    fun x => strStartsWith_append_false _ x _ (by decide)
  have e8 : ∀ x, strStartsWith ("Move Date: " ++ x) "Car Details:" = false :=
    fun x => strStartsWith_append_false _ x _ (by decide)
  have e9 : ∀ x, strStartsWith ("Flexible Date: " ++ x) "Car Details:" = false :=
    fun x => strStartsWith_append_false _ x _ (by decide)
  have e10 : ∀ x, strStartsWith ("Car Transport: " ++ x) "Car Details:" = false :=
    fun x => strStartsWith_append_false _ x _ (by decide)
  have e0 : strStartsWith "Here are your moving request details:" "Car Details:" = false := by
    decide
  have e11 : strStartsWith "" "Car Details:" = false := by decide
  have e12 : strStartsWith endPromptLine "Car Details:" = false := by decide
  have ecar : strStartsWith (carLine r) "Car Details:" = true :=
    strStartsWith_append_true "Car Details: " _ _ (by decide) (by decide)
  have hslT : carCond r = true → summaryLines r =
      ["Here are your moving request details:",
       "Request ID: " ++ r.request_id,
       "Customer Name: " ++ r.customer_name,
       "Email: " ++ r.email,
       "Phone number: " ++ r.phone_number,
       "From Address: " ++ r.from_address,
       "Number of Bedrooms: " ++ toString r.from_bedrooms,
       "To Address: " ++ r.to_address,
       "Move Date: " ++ r.move_date,
       "Flexible Date: " ++ yesNo r.flexible_date,
       "Car Transport: " ++ yesNo r.assist_car,
       carLine r, "", endPromptLine] := fun hc => by simp [summaryLines, hc]
  have hslF : carCond r = false → summaryLines r =
      ["Here are your moving request details:",
       "Request ID: " ++ r.request_id,
       "Customer Name: " ++ r.customer_name,
       "Email: " ++ r.email,
       "Phone number: " ++ r.phone_number,
       "From Address: " ++ r.from_address,
       "Number of Bedrooms: " ++ toString r.from_bedrooms,
       "To Address: " ++ r.to_address,
       "Move Date: " ++ r.move_date,
       "Flexible Date: " ++ yesNo r.flexible_date,
       "Car Transport: " ++ yesNo r.assist_car,
       "", endPromptLine] := fun hc => by simp [summaryLines, hc]
  refine ⟨?_, ?_, ?_, ?_, ?_, ?_⟩
  · cases hc : carCond r with
    | false =>
      rw [hslF hc]
      simp only [formatRecordStr, joinLines, carLine, endPromptLine, hc,
        Bool.false_eq_true, if_false, String.append_assoc, String.empty_append]
    | true =>
      rw [hslT hc]
      simp only [formatRecordStr, joinLines, carLine, endPromptLine, hc,
        eq_self_iff_true, if_true, String.append_assoc, String.empty_append]
  · cases hc : carCond r with
    | false =>
      rw [hslF hc]
      simp only [List.countP_cons, List.countP_nil, e0, e1, e2, e3, e4, e5, e6,
        e7, e8, e9, e10, e11, e12, hc, Bool.false_eq_true, if_false,
        eq_self_iff_true, if_true]
    | true =>
      rw [hslT hc]
      simp only [List.countP_cons, List.countP_nil, e0, e1, e2, e3, e4, e5, e6,
        e7, e8, e9, e10, e11, e12, ecar, hc, Bool.false_eq_true, if_false,
        eq_self_iff_true, if_true]
  · intro hac
    have hc : carCond r = false := by simp [carCond, hac]
    rw [hslF hc]
    simp only [List.countP_cons, List.countP_nil, e0, e1, e2, e3, e4, e5, e6,
      e7, e8, e9, e10, e11, e12, Bool.false_eq_true, if_false]
  · cases hc : carCond r with
    | false => rw [hslF hc]; rfl
    | true => rw [hslT hc]; rfl
  · cases hc : carCond r with
    | false => rw [hslF hc]; rfl
    | true => rw [hslT hc]; rfl
  · cases hc : carCond r with
    | false => rw [hslF hc]; rfl
    | true => rw [hslT hc]; rfl

/-- A record with assist_car false but car values present, for the C8 witness. -/
def c8wRecord : MovingRequest :=
  { request_id := "333333", customer_name := "Fay", email := "f@x.y",
    phone_number := "666", phone_type := "home", from_address := "11 K St",
    from_building_type := "apartment", from_bedrooms := 2, to_address := "12 L St",
    move_date := "2024-06-06", flexible_date := true, assist_car := false,
    car_year := some "2020", car_make := some "Ford", car_model := some "Focus" }

/-- C8 witness: with assist_car false no summary line carries the car label,
even though car values are present. -/
theorem c8_summary_format_witness :
    (summaryLines c8wRecord).countP (fun l => strStartsWith l "Car Details:") = 0 :=
  (c8_summary_format c8wRecord).2.2.1 rfl

/-! ## The intent router (src/agent.py) -/

/-- The text of prompts.LOOKUP_MOVING_INFO before the interpolated user
message: the field-collection instruction. -/
def lookupMovingInfoIntro : String :=
  "If the user has provided their moving information, attempt to look it up in the database. \n                                    If they don\x27t have a profile or the information does not exist in the database, \n                                    create a new entry in the database. If the user doesn\x27t have a profile, \n                                    collect the following information one by one and store each piece directly in the database:\n                                    1. Customer name\n                                    2. Email address\n                                    3. Phone number and type (cell, home, or work)\n                                    4. Current address and building type (house or apartment)\n                                    5. Number of bedrooms\n                                    6. Destination address\n                                    7. Preferred move date\n                                    8. Whether the move date is flexible\n                                    9. Whether they need car transportation\n                                    10. If yes to car transport, collect car details (year, make, model)\n                                    \n                                    Important guidelines:\n                                    1. The request ID will be automatically generated\n                                    2. Store each piece of information in the database as soon as it\x27s provided\n                                    3. If any information is missing, clearly ask for it\n                                    4. Never make assumptions about missing information\n                                    5. After collecting all information:\n                                       - Show the customer their request ID\n                                       - ALWAYS retrieve and display the complete information from the database\n                                       - Format each detail as \"Field Name: Value\"\n                                       - Default display format:\n                                         Request ID: 123456\n                                         Customer Name: John Smith\n                                         Email: john@example.com\n                                         Phone number: 555-1234\n                                         From Address: 123 Main St\n                                         Number of Bedrooms: 3\n                                         To Address: 456 Oak Ave\n                                         Move Date: 2024-03-15\n                                         Flexible Date: Yes\n                                         Car Transport: Yes/No\n                                       \n                                       - Additional details (only show if specifically requested):\n                                         * Phone type (cell, home, or work)\n                                         * Building type (house or apartment)\n                                         * Car details (year, make, model) - only if car transport is needed\n                                       \n                                       - If customer asks for additional details, use the get_additional_details function\n                                       - Ask if any changes are needed\n                                       - Clearly specify the field value and never skip any detail\n                                    6. Only proceed when all information is complete and verified\n                                    \n                                    Make sure to verify each piece of information before moving to the next.\n                                    If any information is unclear, ask for clarification.\n                                    Here is the user\x27s message: "

/-- prompts.LOOKUP_MOVING_INFO applied to the utterance: the instruction text
followed by the user message verbatim. -/
def lookupMovingInfo (content : String) : String := lookupMovingInfoIntro ++ content

/-- Python re word characters over ASCII: letters, digits, underscore. -/
def isWordChar (c : Char) : Bool := c.isAlphanum || c = '_'

/-- Scan for the first position where exactly six digits sit between word
boundaries; prev is the character before the current position. -/
def scanSixDigit (prev : Option Char) : List Char → Option String
  | [] => none
  | c :: rest =>
    if ((match prev with | none => true | some p => !isWordChar p) &&
        (c :: rest.take 5).length == 6 &&
        (c :: rest.take 5).all Char.isDigit &&
        (match rest.drop 5 with | [] => true | d :: _ => !isWordChar d)) then
      some (String.mk (c :: rest.take 5))
    else scanSixDigit (some c) rest

/-- The id extraction of agent.py line 128: re.search of a six-digit token
delimited by word boundaries, over the ASCII word characters. -/
def extractRequestId (s : String) : Option String := scanSixDigit none s.data

/-- The lookup trigger phrases of agent.py line 96. -/
def triggerPhrases : List String := ["check", "look up", "my details", "request id", "lookup"]

/-- Does the lowercased utterance contain a lookup trigger phrase? -/
def hasTrigger (content : String) : Bool :=
  triggerPhrases.any (fun kw => containsSubstr (pyLower content) kw)

/-- The three intents the router distinguishes, with what each forwards. -/
inductive Intent where
  | lookup (rid : Option String)
  | query (forwarded : String)
  | collect (wrapped : String)
deriving DecidableEq

/-- The routing decision of on_user_speech_committed (agent.py lines 93-103):
lookup when a trigger phrase occurs, else query when the session record is
complete, else collect; fetched is the store outcome for the session id. -/
def classify (content : String) (fetched : Except DBError (Option MovingRequest)) : Intent :=
  if hasTrigger content then .lookup (extractRequestId content)
  else if hasMovingRequest fetched then .query content
  else .collect (lookupMovingInfo content)

/-- Message roles of the conversation session. -/
inductive Role where
  | assistant
  | system
  | user
deriving DecidableEq

/-- One message appended to the conversation. -/
structure ChatItem where
  role : Role
  content : String
deriving DecidableEq

/-- The session operations the handlers perform:
session.conversation.item.create and session.response.create. -/
inductive SessionAction where
  | createItem (item : ChatItem)
  | createResponse
deriving DecidableEq

/-- The store outcomes and fault injections of one handled turn: the fetch for
the completeness check, the fetch for a lookup, whether the lookup step raised
(caught by the inner handler), and whether routing itself raised (caught by the
outer handler). -/
structure TurnEnv where
  getCurrent : Except DBError (Option MovingRequest)
  getLookup : Except DBError (Option MovingRequest)
  lookupStepFails : Bool
  routingFails : Bool

/-- The apology of the outer error handler (agent.py line 107). -/
def apologyMsg : String :=
  "I apologize, but I encountered an error processing your request. Could you please try again?"

/-- The inner lookup error message (agent.py line 146). -/
def agentLookupErrMsg : String :=
  "I encountered an error looking up your request. Please verify your request ID and try again."

/-- The re-prompt when no six-digit id is present (agent.py line 153). -/
def needIdMsg : String :=
  "I\x27ll need your request ID to look up your details. Could you please provide your 6-digit request ID?"

/-- AssistantFnc.lookup_moving_request (api.py lines 87-95) on a fetch outcome. -/
def lookupMovingRequest (fetched : Except DBError (Option MovingRequest)) : String :=
  "The moving request details are: " ++ getMovingRequestStr fetched

/-- send_error_response (agent.py lines 109-120): one system message then a
response request. -/
def sendErrorResponseTrace (message : String) : List SessionAction :=
  [.createItem ⟨.system, message⟩, .createResponse]

/-- handle_lookup_request (agent.py lines 122-161) as the session actions it
performs. -/
def handleLookupTrace (content : String) (env : TurnEnv) : List SessionAction :=
  match extractRequestId content with
  | some rid =>
    (if env.lookupStepFails then
      [SessionAction.createItem ⟨.system, agentLookupErrMsg⟩]
    else
      [SessionAction.createItem ⟨.system,
        "Looking up request ID: " ++ rid ++ "\n" ++ lookupMovingRequest env.getLookup⟩]) ++
    [SessionAction.createResponse]
  | none => [.createItem ⟨.system, needIdMsg⟩, .createResponse]

/-- handle_query (agent.py lines 179-193): the utterance forwarded verbatim as
a user message, then a response request. -/
def handleQueryTrace (content : String) : List SessionAction :=
  [.createItem ⟨.user, content⟩, .createResponse]

/-- collect_moving_info (agent.py lines 163-177): the wrapped utterance as a
system message, then a response request. -/
def collectMovingInfoTrace (content : String) : List SessionAction :=
  [.createItem ⟨.system, lookupMovingInfo content⟩, .createResponse]

/-- on_user_speech_committed (agent.py lines 78-107) as the session actions of
one handled turn. -/
def onUserSpeechCommitted (content : String) (env : TurnEnv) : List SessionAction :=
  if env.routingFails then sendErrorResponseTrace apologyMsg
  else if hasTrigger content then handleLookupTrace content env
  else if hasMovingRequest env.getCurrent then handleQueryTrace content
  else collectMovingInfoTrace content

/-- C2: classification is first-match-wins: an utterance whose lowercase form
contains a trigger phrase classifies as lookup with the six-digit token (when
present) extracted as the id; otherwise it classifies as query, forwarded
verbatim, exactly when the session record is complete; otherwise as collect,
wrapped with the field-collection instruction; and the stated example yields
lookup with id 482913. -/
theorem c2_classification :
    (∀ (s : String) (fetched : Except DBError (Option MovingRequest)),
      (hasTrigger s = true → classify s fetched = .lookup (extractRequestId s)) ∧
      (hasTrigger s = false → hasMovingRequest fetched = true →
        classify s fetched = .query s) ∧
      (hasTrigger s = false → hasMovingRequest fetched = false →
        classify s fetched = .collect (lookupMovingInfo s)) ∧
      hasTrigger s = triggerPhrases.any (fun kw => containsSubstr (pyLower s) kw)) ∧
    (∀ fetched, classify "can you check my details, request id is 482913" fetched =
      .lookup (some "482913")) := by
  constructor
  · intro s fetched
    refine ⟨fun h => by simp [classify, h],
      fun h1 h2 => by simp [classify, h1, h2],
      fun h1 h2 => by simp [classify, h1, h2], rfl⟩
  · intro fetched
    have h : hasTrigger "can you check my details, request id is 482913" = true := by
      decide
    have he : extractRequestId "can you check my details, request id is 482913" =
        some "482913" := by decide
    simp [classify, h, he]

/-- C2 witness: a trigger utterance without digits yields lookup with no id, a
non-trigger utterance with a complete record yields query verbatim, and a
non-trigger utterance with no record yields collect wrapped. -/
theorem c2_classification_witness :
    classify "Check my details" (Except.ok none) = .lookup none ∧
    classify "what is your refund policy" (Except.ok (some c3FirstRecord)) =
      .query "what is your refund policy" ∧
    classify "hello there" (Except.ok none) = .collect (lookupMovingInfo "hello there") := by
  refine ⟨?_, ?_, ?_⟩
  · rw [(c2_classification.1 "Check my details" (Except.ok none)).1 (by decide)]
    decide
  · exact (c2_classification.1 "what is your refund policy"
      (Except.ok (some c3FirstRecord))).2.1 (by decide) (by decide)
  · exact (c2_classification.1 "hello there" (Except.ok none)).2.2.1 (by decide) (by decide)

/-- C9: whatever the utterance, the store outcomes and the caught failures,
the handled turn ends with a response request: the last session action is
always session.response.create. -/
theorem c9_always_yields_turn (content : String) (env : TurnEnv) :
    (onUserSpeechCommitted content env).getLast? = some SessionAction.createResponse := by
  unfold onUserSpeechCommitted sendErrorResponseTrace handleLookupTrace
    handleQueryTrace collectMovingInfoTrace
  split
  · rfl
  · split
    · split
      · split
        · rfl
        · rfl
      · rfl
    · split
      · rfl
      · rfl

theorem listStartsWith_append_left (l₁ x n : List Char)
    (h : listStartsWith l₁ n = true) : listStartsWith (l₁ ++ x) n = true := by
  induction n generalizing l₁ with
  | nil => simp [listStartsWith]
  | cons c ns ih =>
    cases l₁ with
    | nil => simp [listStartsWith] at h
    | cons a as =>
      simp only [List.cons_append, listStartsWith, Bool.and_eq_true] at h ⊢
      exact ⟨h.1, ih as h.2⟩

theorem lookupMovingInfo_ne_apology (content : String) :
    lookupMovingInfo content ≠ apologyMsg := by
  intro hE
  have h1 : listStartsWith (lookupMovingInfo content).data ("If the user").data = true := by
    unfold lookupMovingInfo
    rw [String.data_append]
    exact listStartsWith_append_left _ _ _ (by decide)
  rw [hE] at h1
  have h2 : listStartsWith apologyMsg.data ("If the user").data = false := by decide
  rw [h1] at h2
  cases h2

/-- C10: when the utterance has no lookup trigger and the completeness fetch
raised, has_moving_request returns false and the turn is routed to collect,
with the utterance wrapped in the field-collection instruction, exactly as for
a missing record; no apology message appears on this path. -/
theorem c10_storage_failure_collects (content : String) (e : DBError)
    (g : Except DBError (Option MovingRequest)) (b : Bool)
    (h : hasTrigger content = false) :
    onUserSpeechCommitted content ⟨.error e, g, b, false⟩ =
      collectMovingInfoTrace content ∧
    onUserSpeechCommitted content ⟨.ok none, g, b, false⟩ =
      onUserSpeechCommitted content ⟨.error e, g, b, false⟩ ∧
    hasMovingRequest (.error e) = false ∧
    (onUserSpeechCommitted content ⟨.error e, g, b, false⟩).all
      (fun a => a ≠ .createItem ⟨.system, apologyMsg⟩) = true := by
  have h1 : onUserSpeechCommitted content ⟨.error e, g, b, false⟩ =
      collectMovingInfoTrace content := by
    simp [onUserSpeechCommitted, h, hasMovingRequest]
  have h2 : onUserSpeechCommitted content ⟨.ok none, g, b, false⟩ =
      collectMovingInfoTrace content := by
    simp [onUserSpeechCommitted, h, hasMovingRequest]
  refine ⟨h1, h2.trans h1.symm, rfl, ?_⟩
  rw [h1]
  simp [collectMovingInfoTrace, lookupMovingInfo_ne_apology content]

/-- C10 witness: a plain utterance with a failing store routes to collect. -/
theorem c10_storage_failure_collects_witness :
    onUserSpeechCommitted "hello"
        ⟨.error .integrityViolation, .ok none, false, false⟩ =
      collectMovingInfoTrace "hello" :=
  (c10_storage_failure_collects "hello" .integrityViolation (.ok none) false
    (by decide)).1

end MovingApp
